import Mathlib

/-!
Shallow embedding of src/src/services/youtube/uploader.js.

The facade (class YouTubeUploader) builds request payloads, delegates them
to the platform client and surfaces progress and errors.  The embedding
keeps the source's names and control structure; JavaScript numbers are
modelled exactly where their NaN and Infinity cases can arise (the
percentage and throughput arithmetic of the upload-progress callback),
finite values being carried as exact rationals.
-/

/-- A JavaScript number as it occurs in the progress arithmetic: NaN,
positive Infinity, or a finite value carried as an exact rational.  Every
numerator and denominator reaching the divisions below is a nonnegative
byte count or elapsed-millisecond count, so negative infinities never
arise. -/
inductive JsVal : Type where
  | nan : JsVal
  | inf : JsVal
  | fin : ℚ → JsVal
deriving DecidableEq

/-- JavaScript division a / b for finite nonnegative operands:
0 / 0 is NaN, a / 0 is Infinity for a > 0, otherwise the exact quotient. -/
def jsDiv (a b : ℚ) : JsVal :=
  if b = 0 then (if a = 0 then JsVal.nan else JsVal.inf) else JsVal.fin (a / b)

/-- Multiplication by a positive finite constant (NaN and Infinity are
absorbing, as in JavaScript). -/
def JsVal.mulPos : JsVal → ℚ → JsVal
  | JsVal.nan, _ => JsVal.nan
  | JsVal.inf, _ => JsVal.inf
  | JsVal.fin x, c => JsVal.fin (x * c)

/-- Division by a positive finite constant (NaN and Infinity are absorbing,
as in JavaScript). -/
def JsVal.divPos : JsVal → ℚ → JsVal
  | JsVal.nan, _ => JsVal.nan
  | JsVal.inf, _ => JsVal.inf
  | JsVal.fin x, c => JsVal.fin (x / c)

/-- Math.round: for a finite value floor (x + 1/2), which is what
JavaScript computes for nonnegative finite doubles; Math.round(NaN) is NaN
and Math.round(Infinity) is Infinity. -/
def JsVal.jsRound : JsVal → JsVal
  | JsVal.nan => JsVal.nan
  | JsVal.inf => JsVal.inf
  | JsVal.fin x => JsVal.fin ((round x : ℤ) : ℚ)

/-- The JavaScript comparison v > 0: false for NaN, true for Infinity. -/
def JsVal.gtZero : JsVal → Bool
  | JsVal.nan => false
  | JsVal.inf => true
  | JsVal.fin x => decide (0 < x)

/-- The JavaScript comparison v >= c against a finite constant: false for
NaN, true for Infinity. -/
def JsVal.geC : JsVal → ℚ → Bool
  | JsVal.nan, _ => false
  | JsVal.inf, _ => true
  | JsVal.fin x, c => decide (c ≤ x)

/-- The JavaScript comparison a > b: any comparison with NaN is false,
Infinity exceeds every finite value and not itself. -/
def jsGt : JsVal → JsVal → Bool
  | JsVal.nan, _ => false
  | _, JsVal.nan => false
  | JsVal.inf, JsVal.inf => false
  | JsVal.inf, JsVal.fin _ => true
  | JsVal.fin _, JsVal.inf => false
  | JsVal.fin x, JsVal.fin y => decide (y < x)

/-- JavaScript truncation toward zero, as used by the % operator. -/
def jsTrunc (x : ℚ) : ℤ :=
  if 0 ≤ x then ⌊x⌋ else -⌊-x⌋

/-- The JavaScript remainder a % n (sign follows the dividend). -/
def jsMod (a n : ℚ) : ℚ :=
  a - n * (jsTrunc (a / n) : ℚ)

/-- JavaScript division of a finite value by an already-computed positive
JavaScript number: a finite value divided by Infinity is 0.  (The NaN case
is unreachable here: the source guards this division by bytesPerMs > 0.) -/
def jsDivByVal (a : ℚ) : JsVal → ℚ
  | JsVal.nan => 0
  | JsVal.inf => 0
  | JsVal.fin q => a / q

/-- The percentage computed at each progress tick (uploader.js line 75):
Math.round((evt.bytesRead / fileSize) * 100). -/
def jsPct (fileSize bytesRead : ℕ) : JsVal :=
  ((jsDiv (bytesRead : ℚ) (fileSize : ℚ)).mulPos 100).jsRound

/-- One progress event delivered by the platform client: the cumulative
bytes read from the media stream and the wall-clock milliseconds elapsed
since the upload started (the source computes the latter as
Date.now() - startTime at the tick). -/
structure UploadEvent : Type where
  bytesRead : ℕ
  elapsedMs : ℕ
deriving DecidableEq

/-- The object passed to progressCallback (uploader.js lines 105 to 112).
The speed field holds the numeric value that the source interpolates into
the template string next to the fixed suffix MB/s. -/
structure ProgressSnapshot : Type where
  progress : JsVal
  bytesRead : ℕ
  bytesTotal : ℕ
  status : String
  timeRemaining : String
  speed : JsVal
deriving DecidableEq

/-- The body of the emission branch of the onUploadProgress handler
(uploader.js lines 81 to 112): the remaining-time estimate, the status
label, the override of both at one hundred percent, and the throughput
figure. -/
def mkSnapshot (fileSize : ℕ) (currentProgress : JsVal) (bytesRead elapsedMs : ℕ) :
    ProgressSnapshot :=
  let bytesPerMs : JsVal := jsDiv (bytesRead : ℚ) (elapsedMs : ℚ)
  let remainingBytes : ℚ := (fileSize : ℚ) - (bytesRead : ℚ)
  let remainingTimeMs : ℚ :=
    if bytesPerMs.gtZero then jsDivByVal remainingBytes bytesPerMs else 0
  let timeRemainingText : String :=
    if bytesPerMs.gtZero then
      let remainingMinutes : ℤ := ⌊remainingTimeMs / 60000⌋
      let remainingSeconds : ℤ := ⌊jsMod remainingTimeMs 60000 / 1000⌋
      "Noch " ++ toString remainingMinutes ++ " Min " ++ toString remainingSeconds ++ " Sek"
    else "Berechne..."
  let statusText : String :=
    if currentProgress.geC 100 then "Verarbeite Video..."
    else if currentProgress.geC 95 then "Fast fertig..."
    else "Uploading..."
  let timeRemainingText : String :=
    if currentProgress.geC 100 then "YouTube verarbeitet dein Video..." else timeRemainingText
  { progress := currentProgress
    bytesRead := bytesRead
    bytesTotal := fileSize
    status := statusText
    timeRemaining := timeRemainingText
    speed := (((((bytesPerMs.mulPos 1000).divPos 1024).divPos 1024).mulPos 100).jsRound).divPos 100 }

/-- One invocation of the onUploadProgress handler (uploader.js lines 74
to 115): compute the current percentage, and emit a snapshot exactly when
it strictly exceeds the last reported value, which then advances. -/
def onUploadProgress (fileSize : ℕ) (lastReportedProgress : JsVal) (evt : UploadEvent) :
    JsVal × Option ProgressSnapshot :=
  let currentProgress := jsPct fileSize evt.bytesRead
  if jsGt currentProgress lastReportedProgress then
    (currentProgress, some (mkSnapshot fileSize currentProgress evt.bytesRead evt.elapsedMs))
  else
    (lastReportedProgress, none)

/-- The snapshots delivered to progressCallback over a sequence of progress
events, starting from a given lastReportedProgress. -/
def processEventsFrom (fileSize : ℕ) : JsVal → List UploadEvent → List ProgressSnapshot
  | _, [] => []
  | lastReported, evt :: rest =>
    match onUploadProgress fileSize lastReported evt with
    | (lastReported2, some snap) => snap :: processEventsFrom fileSize lastReported2 rest
    | (lastReported2, none) => processEventsFrom fileSize lastReported2 rest

/-- The snapshots delivered to progressCallback over a whole upload:
lastReportedProgress starts at 0 (uploader.js line 58). -/
def processEvents (fileSize : ℕ) (events : List UploadEvent) : List ProgressSnapshot :=
  processEventsFrom fileSize (JsVal.fin 0) events

/-- The metadata object a caller passes to uploadVideo.  Every key is
optional; a missing key is none.  The source also treats the falsy values
of present keys (an empty string, false) through the JavaScript operators
it uses, which the helpers below reproduce. -/
structure Metadata : Type where
  title : Option String := none
  description : Option String := none
  tags : Option (List String) := none
  categoryId : Option String := none
  language : Option String := none
  privacy : Option String := none
  embeddable : Option Bool := none
  publicStatsViewable : Option Bool := none
  madeForKids : Option Bool := none
  publishAt : Option String := none
  allowComments : Option Bool := none

/-- The JavaScript expression v || d for a string-valued key: a missing key
and the empty string are falsy, any other string is returned unchanged. -/
def jsOrStr (v : Option String) (d : String) : String :=
  match v with
  | none => d
  | some s => if s = "" then d else s

/-- The JavaScript truthiness test if (v) for a string-valued key. -/
def jsTruthyStr : Option String → Bool
  | none => false
  | some s => decide (s ≠ "")

/-- The snippet block of the constructed request body (uploader.js lines
32 to 39).  metadata.tags || [] replaces only a missing key, because any
array, including the empty one, is truthy in JavaScript. -/
structure Snippet : Type where
  title : String
  description : String
  tags : List String
  categoryId : String
  defaultLanguage : String
  defaultAudioLanguage : String
deriving DecidableEq

/-- The status block of the constructed request body (uploader.js lines 40
to 45, with the publishAt and commentModerationStatus keys conditionally
added by lines 49 to 56; a key the source does not add is none). -/
structure VideoStatus : Type where
  privacyStatus : String
  embeddable : Bool
  publicStatsViewable : Bool
  selfDeclaredMadeForKids : Bool
  publishAt : Option String := none
  commentModerationStatus : Option String := none
deriving DecidableEq

/-- The whole requestBody of videos.insert. -/
structure RequestMetadata : Type where
  snippet : Snippet
  status : VideoStatus
deriving DecidableEq

/-- The requestMetadata object built by uploadVideo (uploader.js lines 31
to 56).  The host primitive new Date(s).toISOString() is abstracted as the
parameter toIso, applied exactly where the source applies it.  The two
conditional key assignments of the source (publishAt when metadata.publishAt
is truthy, commentModerationStatus when the allowComments key is present
and falsy) appear as the per-key conditionals of the status block. -/
def buildRequestMetadata (toIso : String → String) (metadata : Metadata) :
    RequestMetadata :=
  { snippet :=
      { title := jsOrStr metadata.title "Untitled Video"
        description := jsOrStr metadata.description ""
        tags := metadata.tags.getD []
        categoryId := jsOrStr metadata.categoryId "22"
        defaultLanguage := jsOrStr metadata.language "de"
        defaultAudioLanguage := jsOrStr metadata.language "de" }
    status :=
      { privacyStatus := jsOrStr metadata.privacy "private"
        embeddable := metadata.embeddable != some false
        publicStatsViewable := metadata.publicStatsViewable != some false
        selfDeclaredMadeForKids := metadata.madeForKids.getD false
        publishAt :=
          match metadata.publishAt with
          | some s => if s = "" then none else some (toIso s)
          | none => none
        commentModerationStatus :=
          match metadata.allowComments with
          | some false => some "disabled"
          | _ => none } }

/-- The local filesystem boundary: a path either names an existing file of
a given size in bytes (fs.existsSync true, fs.statSync(..).size) or
nothing. -/
def FileSys : Type := String → Option ℕ

/-- The videos.insert request issued by uploadVideo (uploader.js lines 67
to 73); the streamed media body is the file at the upload path. -/
structure VideoInsertRequest : Type where
  part : String
  requestBody : RequestMetadata
deriving DecidableEq

/-- uploadVideo (uploader.js lines 22 to 127).  The first component lists
the network requests issued, in order; the remote response itself is the
platform's and is abstracted away, the success value being the snapshots
the progress callback received.  A missing file throws before any request
is issued (lines 24 to 26); otherwise the request body is built, exactly
one videos.insert request goes out, and the events of the media stream
drive the progress callback. -/
def uploadVideo (fsys : FileSys) (videoPath : String) (metadata : Metadata)
    (toIso : String → String) (events : List UploadEvent) :
    List VideoInsertRequest × Except String (List ProgressSnapshot) :=
  match fsys videoPath with
  | none => ([], Except.error ("Datei nicht gefunden: " ++ videoPath))
  | some fileSize =>
    let requestMetadata := buildRequestMetadata toIso metadata
    ([{ part := "snippet,status", requestBody := requestMetadata }],
      Except.ok (processEvents fileSize events))

/-- The thumbnails.set request issued by setThumbnail (uploader.js lines
143 to 148). -/
structure ThumbnailSetRequest : Type where
  videoId : String
  mediaPath : String
deriving DecidableEq

/-- setThumbnail (uploader.js lines 135 to 159): a missing thumbnail file
throws before any request is issued (lines 137 to 139); otherwise exactly
one thumbnails.set request goes out.  The platform's response record is
abstracted away. -/
def setThumbnail (fsys : FileSys) (videoId thumbnailPath : String) :
    List ThumbnailSetRequest × Except String Unit :=
  match fsys thumbnailPath with
  | none => ([], Except.error ("Thumbnail-Datei nicht gefunden: " ++ thumbnailPath))
  | some _ =>
    ([{ videoId := videoId, mediaPath := thumbnailPath }], Except.ok ())

/-- The instance state of the facade: the only mutable field beyond the
client handle, this.currentUpload (uploader.js line 12). -/
structure YouTubeUploaderState : Type where
  currentUpload : Option Unit
deriving DecidableEq

/-- The constructor (uploader.js lines 6 to 13): this.currentUpload starts
as null. -/
def newYouTubeUploader : YouTubeUploaderState :=
  { currentUpload := none }

/-- uploadVideo as a method of the facade: the body of uploadVideo
(uploader.js lines 22 to 127) contains no assignment to
this.currentUpload, so the instance state passes through unchanged. -/
def uploadVideoWithState (self : YouTubeUploaderState) (fsys : FileSys)
    (videoPath : String) (metadata : Metadata) (toIso : String → String)
    (events : List UploadEvent) :
    YouTubeUploaderState × (List VideoInsertRequest × Except String (List ProgressSnapshot)) :=
  (self, uploadVideo fsys videoPath metadata toIso events)

/-- channel.statistics, as read by getUploadQuota (uploader.js line 263):
the platform returns videoCount as a string. -/
structure ChannelStatistics : Type where
  videoCount : String
deriving DecidableEq

/-- channel.contentDetails, as read by getUploadQuota (uploader.js line
264); the contentRatings key is passed through opaquely and may be
absent. -/
structure ChannelContentDetails : Type where
  contentRatings : Option String
deriving DecidableEq

/-- One channel record of the channels.list response. -/
structure Channel : Type where
  id : String
  statistics : ChannelStatistics
  contentDetails : ChannelContentDetails
deriving DecidableEq

/-- The channels.list response body: the items key may be absent. -/
structure ChannelListResponse : Type where
  items : Option (List Channel)
deriving DecidableEq

/-- The record getUploadQuota returns (uploader.js lines 261 to 265). -/
structure QuotaResult : Type where
  channelId : String
  totalVideos : String
  quotaInfo : Option String
deriving DecidableEq

/-- getUploadQuota (uploader.js lines 249 to 276), as a function of the
channels.list response: res.data.items && res.data.items.length > 0 holds
exactly when the items key is present and nonempty (every array is truthy
in JavaScript), in which case the fields of items[0] are extracted;
otherwise the No Channel Found error is thrown. -/
def getUploadQuota (resp : ChannelListResponse) : Except String QuotaResult :=
  match resp.items with
  | some (channel :: _) =>
    Except.ok
      { channelId := channel.id
        totalVideos := channel.statistics.videoCount
        quotaInfo := channel.contentDetails.contentRatings }
  | some [] => Except.error "Kein Kanal gefunden"
  | none => Except.error "Kein Kanal gefunden"

/-- The videoCategories.list request (uploader.js lines 170 to 173). -/
structure VideoCategoriesRequest : Type where
  part : String
  regionCode : String
deriving DecidableEq

/-- The playlists.list request (uploader.js lines 194 to 198). -/
structure PlaylistsListRequest : Type where
  part : String
  mine : Bool
  maxResults : ℕ
deriving DecidableEq

/-- A list response of the platform: the items key may be absent.  The
item records are opaque to this module, hence the type parameter. -/
structure ListResponse (α : Type) : Type where
  items : Option (List α)

/-- getVideoCategories (uploader.js lines 166 to 184) as a function of the
remote service: it issues one videoCategories.list request for the given
region and returns res.data.items verbatim.  When the items key is absent,
line 175 (res.data.items.length) throws a TypeError, which the catch block
rethrows. -/
def getVideoCategories (α : Type) (remote : VideoCategoriesRequest → ListResponse α)
    (regionCode : String) : VideoCategoriesRequest × Except String (List α) :=
  let req : VideoCategoriesRequest := { part := "snippet", regionCode := regionCode }
  match (remote req).items with
  | some items => (req, Except.ok items)
  | none => (req, Except.error "TypeError: res.data.items is undefined")

/-- The default of the regionCode parameter (uploader.js line 166). -/
def defaultRegionCode : String := "DE"

/-- getVideoCategories called without a region code: the parameter default
of line 166 supplies the fixed locale. -/
def getVideoCategoriesNoArg (α : Type) (remote : VideoCategoriesRequest → ListResponse α) :
    VideoCategoriesRequest × Except String (List α) :=
  getVideoCategories α remote defaultRegionCode

/-- getMyPlaylists (uploader.js lines 190 to 209) as a function of the
remote service: it issues one playlists.list request with maxResults fixed
at 50 and returns res.data.items verbatim.  When the items key is absent,
line 200 throws a TypeError, which the catch block rethrows. -/
def getMyPlaylists (α : Type) (remote : PlaylistsListRequest → ListResponse α) :
    PlaylistsListRequest × Except String (List α) :=
  let req : PlaylistsListRequest := { part := "snippet", mine := true, maxResults := 50 }
  match (remote req).items with
  | some items => (req, Except.ok items)
  | none => (req, Except.error "TypeError: res.data.items is undefined")

/-!  Theorems: the claims about the facade.  -/

/-- C1: a metadata object omitting an optional field receives the
documented default for that field in the constructed request body: title
Untitled Video, description empty, tags empty, categoryId 22, both
language fields the fixed locale de, privacyStatus private, embeddable
true, publicStatsViewable true, selfDeclaredMadeForKids false. -/
theorem C1_request_defaults (toIso : String → String) (m : Metadata) :
    (m.title = none → (buildRequestMetadata toIso m).snippet.title = "Untitled Video") ∧
    (m.description = none → (buildRequestMetadata toIso m).snippet.description = "") ∧
    (m.tags = none → (buildRequestMetadata toIso m).snippet.tags = []) ∧
    (m.categoryId = none → (buildRequestMetadata toIso m).snippet.categoryId = "22") ∧
    (m.language = none →
      (buildRequestMetadata toIso m).snippet.defaultLanguage = "de" ∧
      (buildRequestMetadata toIso m).snippet.defaultAudioLanguage = "de") ∧
    (m.privacy = none → (buildRequestMetadata toIso m).status.privacyStatus = "private") ∧
    (m.embeddable = none → (buildRequestMetadata toIso m).status.embeddable = true) ∧
    (m.publicStatsViewable = none →
      (buildRequestMetadata toIso m).status.publicStatsViewable = true) ∧
    (m.madeForKids = none →
      (buildRequestMetadata toIso m).status.selfDeclaredMadeForKids = false) := by
  refine ⟨fun h => ?_, fun h => ?_, fun h => ?_, fun h => ?_, fun h => ?_, fun h => ?_,
    fun h => ?_, fun h => ?_, fun h => ?_⟩ <;>
    simp [buildRequestMetadata, jsOrStr, h]

/-- C5: when the allowComments key is present and disabling, the status
block of the constructed request carries commentModerationStatus disabled;
the example scenario with privacy unlisted and allowComments false yields
exactly the documented request body. -/
theorem C5_comments_disabled (toIso : String → String) (m : Metadata) :
    (m.allowComments = some false →
      (buildRequestMetadata toIso m).status.commentModerationStatus = some "disabled") ∧
    buildRequestMetadata toIso
        { title := some "Mein Video", description := some "Meine Beschreibung",
          privacy := some "unlisted", allowComments := some false } =
      { snippet :=
          { title := "Mein Video", description := "Meine Beschreibung", tags := [],
            categoryId := "22", defaultLanguage := "de", defaultAudioLanguage := "de" }
        status :=
          { privacyStatus := "unlisted", embeddable := true, publicStatsViewable := true,
            selfDeclaredMadeForKids := false, publishAt := none,
            commentModerationStatus := some "disabled" } } := by
  constructor
  · intro h
    simp [buildRequestMetadata, h]
  · rfl

/-- C6: a supplied scheduled-publish time reaches the request body as the
normalization of the input through the host's date parser (the source's
new Date(input).toISOString(), an ISO-8601 UTC timestamp for every valid
input), applied to the input unchanged. -/
theorem C6_publishAt_normalized (toIso : String → String) (m : Metadata) (s : String)
    (hs : m.publishAt = some s) (hne : s ≠ "") :
    (buildRequestMetadata toIso m).status.publishAt = some (toIso s) := by
  simp [buildRequestMetadata, hs, hne]

/-- C6 witness: a concrete metadata object with a scheduled-publish time. -/
theorem C6_publishAt_normalized_witness :
    (buildRequestMetadata (fun s => s ++ "Z")
        { publishAt := some "2025-06-01T12:00:00" }).status.publishAt =
      some ("2025-06-01T12:00:00" ++ "Z") :=
  C6_publishAt_normalized (fun s => s ++ "Z") { publishAt := some "2025-06-01T12:00:00" }
    "2025-06-01T12:00:00" rfl (by decide)

/-- C4: a path that names no existing file makes uploadVideo, and
likewise setThumbnail, fail with the Not Found error of the source before
any network request is issued: the request trace is empty. -/
theorem C4_missing_file_no_request (fsys : FileSys) (videoPath thumbnailPath videoId : String)
    (m : Metadata) (toIso : String → String) (events : List UploadEvent)
    (hv : fsys videoPath = none) (htb : fsys thumbnailPath = none) :
    uploadVideo fsys videoPath m toIso events =
      ([], Except.error ("Datei nicht gefunden: " ++ videoPath)) ∧
    setThumbnail fsys videoId thumbnailPath =
      ([], Except.error ("Thumbnail-Datei nicht gefunden: " ++ thumbnailPath)) := by
  constructor
  · simp [uploadVideo, hv]
  · simp [setThumbnail, htb]

/-- C4 witness: a filesystem with no files at all. -/
theorem C4_missing_file_no_request_witness :
    uploadVideo (fun _ => none) "missing.mp4" {} (fun s => s) [] =
      ([], Except.error ("Datei nicht gefunden: " ++ "missing.mp4")) ∧
    setThumbnail (fun _ => none) "vid123" "missing.jpg" =
      ([], Except.error ("Thumbnail-Datei nicht gefunden: " ++ "missing.jpg")) :=
  C4_missing_file_no_request (fun _ => none) "missing.mp4" "missing.jpg" "vid123" {}
    (fun s => s) [] rfl rfl

/-- C7: getUploadQuota fails with the No Channel Found error exactly when
the channels.list response carries a missing or empty items list, and
otherwise returns the record extracted from the first channel. -/
theorem C7_upload_quota (resp : ChannelListResponse) :
    (getUploadQuota resp = Except.error "Kein Kanal gefunden" ↔
      resp.items = none ∨ resp.items = some []) ∧
    ∀ (c : Channel) (rest : List Channel), resp.items = some (c :: rest) →
      getUploadQuota resp = Except.ok
        { channelId := c.id, totalVideos := c.statistics.videoCount,
          quotaInfo := c.contentDetails.contentRatings } := by
  obtain ⟨items⟩ := resp
  constructor
  · rcases items with _ | ⟨_ | ⟨c, rest⟩⟩ <;> simp [getUploadQuota]
  · rintro c rest h
    rcases items with _ | l <;> simp_all [getUploadQuota]

/-- C8: on a successful response carrying an items list, both
getVideoCategories and getMyPlaylists return exactly that list, in order;
getMyPlaylists always issues its request with maxResults fixed at 50, and
getVideoCategories issues its request with region code DE when none is
supplied. -/
theorem C8_list_passthrough (α : Type) (catRemote : VideoCategoriesRequest → ListResponse α)
    (plRemote : PlaylistsListRequest → ListResponse α) (regionCode : String) :
    ((getMyPlaylists α plRemote).1 =
        { part := "snippet", mine := true, maxResults := 50 } ∧
      (getVideoCategoriesNoArg α catRemote).1.regionCode = "DE") ∧
    (∀ items, (catRemote { part := "snippet", regionCode := regionCode }).items = some items →
      (getVideoCategories α catRemote regionCode).2 = Except.ok items) ∧
    (∀ items, (plRemote { part := "snippet", mine := true, maxResults := 50 }).items = some items →
      (getMyPlaylists α plRemote).2 = Except.ok items) := by
  refine ⟨⟨?_, ?_⟩, ?_, ?_⟩
  · rcases h : (plRemote { part := "snippet", mine := true, maxResults := 50 }).items with _ | items <;>
      simp [getMyPlaylists, h]
  · rcases h : (catRemote { part := "snippet", regionCode := "DE" }).items with _ | items <;>
      simp [getVideoCategoriesNoArg, getVideoCategories, defaultRegionCode, h]
  · intro items h
    simp [getVideoCategories, h]
  · intro items h
    simp [getMyPlaylists, h]

/-- C9: the uploadVideo body contains no assignment to this.currentUpload,
so the instance state passes through every call unchanged, and the field
keeps the constructor's null for the facade's whole lifetime; the in-flight
upload is never stored, contrary to the comment on uploader.js line 12. -/
theorem C9_currentUpload_never_assigned (self : YouTubeUploaderState) (fsys : FileSys)
    (videoPath : String) (m : Metadata) (toIso : String → String)
    (events : List UploadEvent) :
    (uploadVideoWithState self fsys videoPath m toIso events).1 = self ∧
    newYouTubeUploader.currentUpload = none :=
  ⟨rfl, rfl⟩

/-- C10 counterexample: on an existing file of size 0, a progress event
with a positive bytesRead computes Infinity as its percentage, Infinity
exceeds the initial last-reported value 0, and one snapshot IS emitted; so
the callback is not silent for every event sequence. -/
theorem C10_zero_size_counterexample :
    (processEvents 0 [{ bytesRead := 1, elapsedMs := 1 }]).length = 1 ∧
    (uploadVideo (fun _ => some 0) "empty.mp4" {} (fun s => s)
        [{ bytesRead := 1, elapsedMs := 1 }]).2 =
      Except.ok (processEvents 0 [{ bytesRead := 1, elapsedMs := 1 }]) := by
  constructor
  · have h1 : jsPct 0 1 = JsVal.inf := by
      simp [jsPct, jsDiv, JsVal.mulPos, JsVal.jsRound]
    simp [processEvents, processEventsFrom, onUploadProgress, h1, jsGt]
  · rfl

/-- C10 amended: for an existing file of total size 0 bytes, uploadVideo
never invokes the progress callback over any sequence of progress events
whose bytesRead is 0 (the only events a zero-length stream produces): the
computed percentage is NaN, every comparison with NaN is false, so the
strictly-greater-than-last-reported test never passes. -/
theorem C10_zero_size_no_progress (events : List UploadEvent)
    (h : ∀ e ∈ events, e.bytesRead = 0) :
    processEvents 0 events = [] := by
  have hnan : jsPct 0 0 = JsVal.nan := by
    simp [jsPct, jsDiv, JsVal.mulPos, JsVal.jsRound]
  have key : ∀ (l : List UploadEvent) (last : JsVal), (∀ e ∈ l, e.bytesRead = 0) →
      processEventsFrom 0 last l = [] := by
    intro l
    induction l with
    | nil => intro last _; rfl
    | cons e rest ih =>
      intro last hall
      have he : e.bytesRead = 0 := hall e (List.mem_cons_self e rest)
      have hc : jsPct 0 e.bytesRead = JsVal.nan := by rw [he]; exact hnan
      have hfalse : jsGt (jsPct 0 e.bytesRead) last = false := by
        rw [hc]; cases last <;> rfl
      simp only [processEventsFrom, onUploadProgress, hfalse]
      exact ih last (fun x hx => hall x (List.mem_cons_of_mem e hx))
  exact key events (JsVal.fin 0) h

/-- C10 witness for the amended claim: two zero-byte progress events on a
zero-size file emit nothing. -/
theorem C10_zero_size_no_progress_witness :
    processEvents 0 [{ bytesRead := 0, elapsedMs := 5 }, { bytesRead := 0, elapsedMs := 9 }] = [] :=
  C10_zero_size_no_progress
    [{ bytesRead := 0, elapsedMs := 5 }, { bytesRead := 0, elapsedMs := 9 }] (by decide)

/-- The comparison jsGt is transitive on the values that occur as reported
percentages (NaN never passes the emission test, so it is never stored). -/
theorem jsGt_trans {a b c : JsVal} (h1 : jsGt b a = true) (h2 : jsGt c b = true) :
    jsGt c a = true := by
  cases a <;> cases b <;> cases c <;>
    simp [jsGt] at h1 h2 ⊢ <;>
    try exact lt_trans h1 h2

/-- The progress field of an emitted snapshot is the percentage computed
at its tick. -/
theorem mkSnapshot_progress (fileSize : ℕ) (cp : JsVal) (bytesRead elapsedMs : ℕ) :
    (mkSnapshot fileSize cp bytesRead elapsedMs).progress = cp := rfl

/-- Every snapshot emitted after a given lastReportedProgress carries a
strictly larger percentage, and the whole emitted sequence is pairwise
strictly increasing. -/
theorem processEventsFrom_pairwise (fileSize : ℕ) (events : List UploadEvent) :
    ∀ last : JsVal,
      (∀ s ∈ processEventsFrom fileSize last events, jsGt s.progress last = true) ∧
      List.Pairwise (fun a b => jsGt b.progress a.progress = true)
        (processEventsFrom fileSize last events) := by
  induction events with
  | nil =>
    intro last
    exact ⟨by simp [processEventsFrom], by simp [processEventsFrom]⟩
  | cons e rest ih =>
    intro last
    by_cases h : jsGt (jsPct fileSize e.bytesRead) last = true
    · have hunf : processEventsFrom fileSize last (e :: rest) =
          mkSnapshot fileSize (jsPct fileSize e.bytesRead) e.bytesRead e.elapsedMs ::
            processEventsFrom fileSize (jsPct fileSize e.bytesRead) rest := by
        simp [processEventsFrom, onUploadProgress, h]
      obtain ⟨ihall, ihpw⟩ := ih (jsPct fileSize e.bytesRead)
      constructor
      · intro s hs
        rw [hunf] at hs
        rcases List.mem_cons.mp hs with rfl | hs2
        · rw [mkSnapshot_progress]; exact h
        · exact jsGt_trans h (ihall s hs2)
      · rw [hunf]
        refine List.Pairwise.cons ?_ ihpw
        intro s hs
        rw [mkSnapshot_progress]
        exact ihall s hs
    · have hunf : processEventsFrom fileSize last (e :: rest) =
          processEventsFrom fileSize last rest := by
        simp [processEventsFrom, onUploadProgress, h]
      rw [hunf]
      exact ih last

/-- C2: over every upload and every sequence of progress events, the
percentages of the snapshots delivered to the progress callback are
pairwise strictly increasing: a snapshot is emitted only when the newly
computed percentage strictly exceeds the last reported one, so no value
repeats and none arrives out of order. -/
theorem C2_progress_strictly_increasing (fileSize : ℕ) (events : List UploadEvent) :
    List.Pairwise (fun a b => jsGt b.progress a.progress = true)
      (processEvents fileSize events) :=
  (processEventsFrom_pairwise fileSize events (JsVal.fin 0)).2

/-- The spec's integer percentage of a tick: bytes read over total size,
times one hundred, rounded (the value jsPct computes whenever the total
size is positive). -/
def specPercentage (fileSize bytesRead : ℕ) : ℤ :=
  round ((bytesRead : ℚ) / (fileSize : ℚ) * 100)

/-- The spec's average-throughput remaining-time model, in milliseconds:
elapsed time over bytes sent so far, projected over the remaining bytes. -/
def specRemainingTimeMs (fileSize bytesRead elapsedMs : ℕ) : ℚ :=
  ((fileSize : ℚ) - (bytesRead : ℚ)) * ((elapsedMs : ℚ) / (bytesRead : ℚ))

/-- For a positive total size the tick percentage is finite and equals the
spec's rounded figure. -/
theorem jsPct_pos (fileSize bytesRead : ℕ) (hS : 0 < fileSize) :
    jsPct fileSize bytesRead = JsVal.fin ((specPercentage fileSize bytesRead : ℤ) : ℚ) := by
  have h : ((fileSize : ℕ) : ℚ) ≠ 0 := Nat.cast_ne_zero.mpr hS.ne'
  simp [jsPct, jsDiv, h, JsVal.mulPos, JsVal.jsRound, specPercentage]

/-- jsPct_pos witness check at a concrete input. -/
theorem jsPct_pos_check : jsPct 1000 250 = JsVal.fin ((25 : ℤ) : ℚ) := by
  rw [jsPct_pos 1000 250 (by norm_num)]
  norm_num [specPercentage, round_eq]

/-- The status label of a snapshot whose percentage is the finite p. -/
theorem mkSnapshot_status (fileSize bytesRead elapsedMs : ℕ) (p : ℤ) :
    (mkSnapshot fileSize (JsVal.fin (p : ℚ)) bytesRead elapsedMs).status =
      if 100 ≤ p then "Verarbeite Video..."
      else if 95 ≤ p then "Fast fertig..."
      else "Uploading..." := by
  have h1 : ((100 : ℚ) ≤ (p : ℚ)) ↔ 100 ≤ p := by exact_mod_cast Iff.rfl
  have h2 : ((95 : ℚ) ≤ (p : ℚ)) ↔ 95 ≤ p := by exact_mod_cast Iff.rfl
  by_cases hc1 : 100 ≤ p <;> by_cases hc2 : 95 ≤ p <;>
    simp [mkSnapshot, JsVal.geC, h1, h2, hc1, hc2]

/-- The time-remaining text of a snapshot whose percentage is the finite
p, for a positive elapsed time. -/
theorem mkSnapshot_timeRemaining (fileSize bytesRead elapsedMs : ℕ) (p : ℤ)
    (ht : 0 < elapsedMs) :
    (mkSnapshot fileSize (JsVal.fin (p : ℚ)) bytesRead elapsedMs).timeRemaining =
      if 100 ≤ p then "YouTube verarbeitet dein Video..."
      else if 0 < bytesRead then
        "Noch " ++
          toString (⌊((fileSize : ℚ) - (bytesRead : ℚ)) /
              ((bytesRead : ℚ) / (elapsedMs : ℚ)) / 60000⌋) ++
        " Min " ++
          toString (⌊jsMod (((fileSize : ℚ) - (bytesRead : ℚ)) /
              ((bytesRead : ℚ) / (elapsedMs : ℚ))) 60000 / 1000⌋) ++
        " Sek"
      else "Berechne..." := by
  have htQ : ((elapsedMs : ℕ) : ℚ) ≠ 0 := Nat.cast_ne_zero.mpr ht.ne'
  have htQpos : (0 : ℚ) < (elapsedMs : ℚ) := by exact_mod_cast ht
  have hbt : (0 < (bytesRead : ℚ) / (elapsedMs : ℚ)) ↔ 0 < bytesRead := by
    constructor
    · intro h
      by_contra hb
      have hb0 : bytesRead = 0 := Nat.eq_zero_of_not_pos hb
      rw [hb0] at h
      simp at h
    · intro hb
      exact div_pos (by exact_mod_cast hb) htQpos
  have h1 : ((100 : ℚ) ≤ (p : ℚ)) ↔ 100 ≤ p := by exact_mod_cast Iff.rfl
  by_cases hc1 : 100 ≤ p <;> by_cases hc2 : 0 < bytesRead <;>
    simp [mkSnapshot, jsDiv, htQ, JsVal.gtZero, JsVal.geC, jsDivByVal, hbt, h1, hc1, hc2]

/-- The speed figure of a snapshot: the throughput in bytes per
millisecond scaled to megabytes per second, rounded at two decimals, for
a positive elapsed time. -/
theorem mkSnapshot_speed (fileSize bytesRead elapsedMs : ℕ) (cp : JsVal)
    (ht : 0 < elapsedMs) :
    (mkSnapshot fileSize cp bytesRead elapsedMs).speed =
      JsVal.fin (((round ((bytesRead : ℚ) / (elapsedMs : ℚ) * 1000 / 1024 / 1024 * 100) : ℤ) :
        ℚ) / 100) := by
  have htQ : ((elapsedMs : ℕ) : ℚ) ≠ 0 := Nat.cast_ne_zero.mpr ht.ne'
  simp [mkSnapshot, jsDiv, htQ, JsVal.mulPos, JsVal.divPos, JsVal.jsRound]

/-- A remaining-time text never collides with the throughput placeholder:
the first character differs. -/
theorem noch_string_ne_berechne (x y : String) :
    "Noch " ++ x ++ " Min " ++ y ++ " Sek" ≠ "Berechne..." := by
  intro h
  have h2 := congrArg String.data h
  simp [String.data_append] at h2

/-- A zero bytesRead gives the zero percentage. -/
theorem specPercentage_zero (fileSize : ℕ) : specPercentage fileSize 0 = 0 := by
  simp [specPercentage]

/-- Below one hundred percent the upload is strictly unfinished: fewer
bytes read than the total size. -/
theorem bytes_lt_of_pct_lt_100 (fileSize bytesRead : ℕ) (hS : 0 < fileSize)
    (h : specPercentage fileSize bytesRead < 100) :
    (bytesRead : ℚ) < (fileSize : ℚ) := by
  by_contra hb
  push_neg at hb
  have hSQ : (0 : ℚ) < (fileSize : ℚ) := by exact_mod_cast hS
  have h1 : (1 : ℚ) ≤ (bytesRead : ℚ) / (fileSize : ℚ) := (one_le_div hSQ).mpr hb
  have h2 : (100 : ℚ) ≤ (bytesRead : ℚ) / (fileSize : ℚ) * 100 := by linarith
  have h3 : (100 : ℤ) ≤ specPercentage fileSize bytesRead := by
    rw [specPercentage, round_eq]
    exact Int.le_floor.mpr (by push_cast; linarith)
  omega

/-- A positive throughput means a positive byte count, for a positive
elapsed time. -/
theorem throughput_pos_iff (bytesRead elapsedMs : ℕ) (ht : 0 < elapsedMs) :
    (0 < (bytesRead : ℚ) / (elapsedMs : ℚ)) ↔ 0 < bytesRead := by
  have htQpos : (0 : ℚ) < (elapsedMs : ℚ) := by exact_mod_cast ht
  constructor
  · intro h
    by_contra hb
    have hb0 : bytesRead = 0 := Nat.eq_zero_of_not_pos hb
    rw [hb0] at h
    simp at h
  · intro hb
    exact div_pos (by exact_mod_cast hb) htQpos

/-- C3: for a tick with positive total size and positive elapsed time,
the emitted snapshot's fields follow the specified formulas: the status
label is Uploading below 95 percent, Almost done from 95 to 99, and
Processing at (and beyond) 100; the time-remaining text is the Calculating
placeholder exactly when the throughput is not positive, the platform
processing message at 100 percent, and otherwise the minutes-and-seconds
rendering of the average-throughput model (elapsed over bytes sent,
projected over remaining bytes); and the speed figure is a two-decimal
value within half a hundredth of the exact throughput in megabytes per
second. -/
theorem C3_snapshot_field_formulas (fileSize bytesRead elapsedMs : ℕ)
    (hS : 0 < fileSize) (ht : 0 < elapsedMs) :
    ((mkSnapshot fileSize (jsPct fileSize bytesRead) bytesRead elapsedMs).status =
        "Uploading..." ↔ specPercentage fileSize bytesRead < 95) ∧
    ((mkSnapshot fileSize (jsPct fileSize bytesRead) bytesRead elapsedMs).status =
        "Fast fertig..." ↔
      95 ≤ specPercentage fileSize bytesRead ∧ specPercentage fileSize bytesRead < 100) ∧
    ((mkSnapshot fileSize (jsPct fileSize bytesRead) bytesRead elapsedMs).status =
        "Verarbeite Video..." ↔ 100 ≤ specPercentage fileSize bytesRead) ∧
    ((mkSnapshot fileSize (jsPct fileSize bytesRead) bytesRead elapsedMs).timeRemaining =
        "Berechne..." ↔ ¬ 0 < (bytesRead : ℚ) / (elapsedMs : ℚ)) ∧
    (100 ≤ specPercentage fileSize bytesRead →
      (mkSnapshot fileSize (jsPct fileSize bytesRead) bytesRead elapsedMs).timeRemaining =
        "YouTube verarbeitet dein Video...") ∧
    (0 < (bytesRead : ℚ) / (elapsedMs : ℚ) → specPercentage fileSize bytesRead < 100 →
      (mkSnapshot fileSize (jsPct fileSize bytesRead) bytesRead elapsedMs).timeRemaining =
        "Noch " ++
          toString (⌊specRemainingTimeMs fileSize bytesRead elapsedMs / 60000⌋) ++
        " Min " ++
          toString (⌊(specRemainingTimeMs fileSize bytesRead elapsedMs -
            60000 * (⌊specRemainingTimeMs fileSize bytesRead elapsedMs / 60000⌋ : ℚ)) / 1000⌋) ++
        " Sek") ∧
    (∃ k : ℤ, (mkSnapshot fileSize (jsPct fileSize bytesRead) bytesRead elapsedMs).speed =
        JsVal.fin ((k : ℚ) / 100) ∧
      |(k : ℚ) / 100 - (bytesRead : ℚ) / (elapsedMs : ℚ) * 1000 / 1024 / 1024| ≤ 1 / 200) := by
  have hp := jsPct_pos fileSize bytesRead hS
  rw [hp]
  have hst := mkSnapshot_status fileSize bytesRead elapsedMs (specPercentage fileSize bytesRead)
  have htr := mkSnapshot_timeRemaining fileSize bytesRead elapsedMs
    (specPercentage fileSize bytesRead) ht
  have hsp := mkSnapshot_speed fileSize bytesRead elapsedMs
    (JsVal.fin ((specPercentage fileSize bytesRead : ℤ) : ℚ)) ht
  rw [hst, htr, hsp]
  have hbt := throughput_pos_iff bytesRead elapsedMs ht
  refine ⟨?_, ?_, ?_, ?_, ?_, ?_, ?_⟩
  · by_cases hc1 : 100 ≤ specPercentage fileSize bytesRead <;>
      by_cases hc2 : 95 ≤ specPercentage fileSize bytesRead <;>
      simp [hc1, hc2] <;> omega
  · by_cases hc1 : 100 ≤ specPercentage fileSize bytesRead <;>
      by_cases hc2 : 95 ≤ specPercentage fileSize bytesRead <;>
      simp [hc1, hc2] <;> omega
  · by_cases hc1 : 100 ≤ specPercentage fileSize bytesRead <;>
      by_cases hc2 : 95 ≤ specPercentage fileSize bytesRead <;>
      simp [hc1, hc2] <;> omega
  · by_cases hb : 0 < bytesRead
    · by_cases hc1 : 100 ≤ specPercentage fileSize bytesRead <;>
        simp [hc1, hb, hbt, noch_string_ne_berechne]
    · have hb0 : bytesRead = 0 := Nat.eq_zero_of_not_pos hb
      have hp0 : specPercentage fileSize bytesRead = 0 := by
        rw [hb0]; exact specPercentage_zero fileSize
      simp [hp0, hb, hbt]
  · intro h100
    simp [h100]
  · intro hThr hlt
    have hb : 0 < bytesRead := hbt.mp hThr
    have hnot100 : ¬ 100 ≤ specPercentage fileSize bytesRead := by omega
    rw [if_neg hnot100, if_pos hb]
    have hrt : ((fileSize : ℚ) - (bytesRead : ℚ)) / ((bytesRead : ℚ) / (elapsedMs : ℚ)) =
        specRemainingTimeMs fileSize bytesRead elapsedMs := by
      rw [div_div_eq_mul_div, mul_div_assoc, specRemainingTimeMs]
    have hblt := bytes_lt_of_pct_lt_100 fileSize bytesRead hS hlt
    have hrtnn : 0 ≤ specRemainingTimeMs fileSize bytesRead elapsedMs := by
      rw [specRemainingTimeMs]
      have h1 : (0 : ℚ) ≤ (fileSize : ℚ) - (bytesRead : ℚ) := by linarith
      exact mul_nonneg h1 (div_nonneg (by positivity) (by positivity))
    have hmod : jsMod (specRemainingTimeMs fileSize bytesRead elapsedMs) 60000 =
        specRemainingTimeMs fileSize bytesRead elapsedMs -
          60000 * (⌊specRemainingTimeMs fileSize bytesRead elapsedMs / 60000⌋ : ℚ) := by
      rw [jsMod, jsTrunc]
      have h0 : (0 : ℚ) ≤ specRemainingTimeMs fileSize bytesRead elapsedMs / 60000 :=
        div_nonneg hrtnn (by norm_num)
      rw [if_pos h0]
    rw [hrt, hmod]
  · refine ⟨round ((bytesRead : ℚ) / (elapsedMs : ℚ) * 1000 / 1024 / 1024 * 100), rfl, ?_⟩
    have h := abs_sub_round ((bytesRead : ℚ) / (elapsedMs : ℚ) * 1000 / 1024 / 1024 * 100)
    have heq : ((round ((bytesRead : ℚ) / (elapsedMs : ℚ) * 1000 / 1024 / 1024 * 100) : ℤ) :
          ℚ) / 100 - (bytesRead : ℚ) / (elapsedMs : ℚ) * 1000 / 1024 / 1024 =
        -(((bytesRead : ℚ) / (elapsedMs : ℚ) * 1000 / 1024 / 1024 * 100 -
          ((round ((bytesRead : ℚ) / (elapsedMs : ℚ) * 1000 / 1024 / 1024 * 100) : ℤ) : ℚ)) /
            100) := by
      ring
    rw [heq, abs_neg, abs_div]
    rw [show |(100 : ℚ)| = 100 by norm_num]
    rw [div_le_iff₀ (show (0 : ℚ) < 100 by norm_num)]
    linarith

/-- C3 witness: the snapshot of a tick at 250 of 1000 bytes after one
second, with every hypothesis discharged at the concrete input. -/
theorem C3_snapshot_field_formulas_witness :
    ((mkSnapshot 1000 (jsPct 1000 250) 250 1000).status =
        "Uploading..." ↔ specPercentage 1000 250 < 95) ∧
    ((mkSnapshot 1000 (jsPct 1000 250) 250 1000).status =
        "Fast fertig..." ↔
      95 ≤ specPercentage 1000 250 ∧ specPercentage 1000 250 < 100) ∧
    ((mkSnapshot 1000 (jsPct 1000 250) 250 1000).status =
        "Verarbeite Video..." ↔ 100 ≤ specPercentage 1000 250) ∧
    ((mkSnapshot 1000 (jsPct 1000 250) 250 1000).timeRemaining =
        "Berechne..." ↔ ¬ 0 < ((250 : ℕ) : ℚ) / ((1000 : ℕ) : ℚ)) ∧
    (100 ≤ specPercentage 1000 250 →
      (mkSnapshot 1000 (jsPct 1000 250) 250 1000).timeRemaining =
        "YouTube verarbeitet dein Video...") ∧
    (0 < ((250 : ℕ) : ℚ) / ((1000 : ℕ) : ℚ) → specPercentage 1000 250 < 100 →
      (mkSnapshot 1000 (jsPct 1000 250) 250 1000).timeRemaining =
        "Noch " ++
          toString (⌊specRemainingTimeMs 1000 250 1000 / 60000⌋) ++
        " Min " ++
          toString (⌊(specRemainingTimeMs 1000 250 1000 -
            60000 * (⌊specRemainingTimeMs 1000 250 1000 / 60000⌋ : ℚ)) / 1000⌋) ++
        " Sek") ∧
    (∃ k : ℤ, (mkSnapshot 1000 (jsPct 1000 250) 250 1000).speed =
        JsVal.fin ((k : ℚ) / 100) ∧
      |(k : ℚ) / 100 - ((250 : ℕ) : ℚ) / ((1000 : ℕ) : ℚ) * 1000 / 1024 / 1024| ≤ 1 / 200) :=
  C3_snapshot_field_formulas 1000 250 1000 (by norm_num) (by norm_num)
